import Mathlib

/-!
Shallow embedding of the TimeGrid desktop shell (`src/src-tauri/src/lib.rs`).

The shell is event-wiring glue over a windowing framework: a tray-title
command, a geometry helper placing a popup widget below the tray icon, and
event handlers toggling/hiding/showing windows.  We model the framework
state explicitly (`AppState`) and each handler as a function from state
(plus the platform responses it observes) to a new state together with the
list of window operations it issued.
-/

namespace TimeGrid

/-- Screen position as reported by the framework: either physical pixels
(`i32` coordinates) or logical coordinates (`f64`, modelled as `ℚ`).
Mirrors `tauri::Position`. -/
inductive Pos where
  | Physical (x y : Int)
  | Logical (x y : ℚ)
deriving DecidableEq

/-- Screen size as reported by the framework: physical (`u32`) or logical
(`f64`, modelled as `ℚ`).  Mirrors `tauri::Size`. -/
inductive Sz where
  | Physical (width height : Nat)
  | Logical (width height : ℚ)
deriving DecidableEq

/-- The tray icon's screen rectangle (`tauri::Rect`). -/
structure TrayRect where
  position : Pos
  size : Sz
deriving DecidableEq

/-- A webview window as far as the shell observes it: whether it is
visible and its last applied position. -/
structure WindowState where
  visible : Bool
  pos : Int × Int
deriving DecidableEq

deriving instance DecidableEq for Except

/-- The tray icon: the result the platform gives for `tray.rect()`
(`Err`, `Ok(None)` or `Ok(Some(rect))`) and the current title text. -/
structure TrayState where
  rect : Except String (Option TrayRect)
  title : String
deriving DecidableEq

/-- The shell's world: the two named webview windows (absent handles are
`none`, mirroring `get_webview_window` returning `None`) and the tray icon
(`tray_by_id("main-tray")`). -/
structure AppState where
  mainWindow : Option WindowState
  widgetWindow : Option WindowState
  tray : Option TrayState
deriving DecidableEq

/-- A window/tray operation issued by a handler, recorded in order. -/
inductive WinOp where
  | hideOp (w : String)
  | showOp (w : String)
  | setFocusOp (w : String)
  | setPositionOp (w : String) (x y : Int)
  | evalOp (w : String) (script : String)
  | setTitleOp (t : String)
  | exitOp (code : Int)
  | preventCloseOp
deriving DecidableEq

/-- Truncation of a rational toward zero (the rounding of Rust's
`f64 as i32` before saturation). -/
def truncQ (q : ℚ) : Int :=
  if 0 ≤ q then ⌊q⌋ else ⌈q⌉

/-- Rust's saturating numeric cast `f64 as i32`: truncate toward zero,
then clamp into the `i32` range. -/
def f64_as_i32 (q : ℚ) : Int :=
  max (-(2 ^ 31)) (min (2 ^ 31 - 1) (truncQ q))

/-- The title computation inside `update_tray_title`
(src/src-tauri/src/lib.rs lines 17–23); the spec names it `formatTitle`. -/
def formatTitle (elapsed project : String) : String :=
  if !elapsed.isEmpty && !project.isEmpty then
    "⏱ " ++ elapsed ++ " • " ++ project
  else if !elapsed.isEmpty then
    "⏱ " ++ elapsed
  else
    "TimeGrid"

/-- The `update_tray_title` command (lib.rs lines 9–32).  `set_title` is a
platform call that can fail; its outcome is the oracle `set_title_err`
(`none` = success, `some e` = the platform error string `e`).  On success
the title replaces the tray's text; a missing tray icon is only logged. -/
def update_tray_title (st : AppState) (set_title_err : Option String)
    (elapsed project : String) : Except String AppState :=
  match st.tray with
  | some tray =>
    let title :=
      if !elapsed.isEmpty && !project.isEmpty then
        "⏱ " ++ elapsed ++ " • " ++ project
      else if !elapsed.isEmpty then
        "⏱ " ++ elapsed
      else
        "TimeGrid"
    match set_title_err with
    | some e => Except.error e
    | none => Except.ok { st with tray := some { tray with title := title } }
  | none => Except.ok st

/-- `position_widget_window` (lib.rs lines 35–62): if the widget window,
the tray icon and its rectangle are all available, compute the target
top-left point (horizontally centered under the tray, 8 units below it,
in `f64`), cast both coordinates with `as i32`, and apply them with
`set_position`; otherwise do nothing. -/
def position_widget_window (st : AppState) : AppState × List WinOp :=
  match st.widgetWindow with
  | none => (st, [])
  | some widget =>
    match st.tray with
    | none => (st, [])
    | some tray =>
      match tray.rect with
      | Except.ok (some tray_rect) =>
        let window_width : ℚ := 320
        let txy : ℚ × ℚ :=
          match tray_rect.position with
          | Pos.Physical x y => ((x : ℚ), (y : ℚ))
          | Pos.Logical x y => (x, y)
        let twh : ℚ × ℚ :=
          match tray_rect.size with
          | Sz.Physical w h => ((w : ℚ), (h : ℚ))
          | Sz.Logical w h => (w, h)
        let x := txy.1 + twh.1 / 2 - window_width / 2
        let y := txy.2 + twh.2 + 8
        ({ st with widgetWindow := some { widget with pos := (f64_as_i32 x, f64_as_i32 y) } },
          [WinOp.setPositionOp "timer-widget" (f64_as_i32 x) (f64_as_i32 y)])
      | _ => (st, [])

/-- The platform's answer to one `is_visible()` query, as a function of the
window's actual visibility: `Except.ok b` for an accurate (or wrong)
answer, `Except.error e` for a failed query. -/
def VisQuery := Bool → Except String Bool

/-- The accurate platform: `is_visible()` reports the true visibility. -/
def accurateVis : VisQuery := fun b => Except.ok b

/-- The `"toggle_timer"` branch of the application-menu handler
(lib.rs lines 198–209): if the widget window exists, hide it when
`is_visible().unwrap_or(false)`, else position, show and focus it. -/
def appMenuToggleTimer (vis : VisQuery) (st : AppState) : AppState × List WinOp :=
  match st.widgetWindow with
  | none => (st, [])
  | some widget =>
    if ((vis widget.visible).toOption.getD false) then
      ({ st with widgetWindow := some { widget with visible := false } },
        [WinOp.hideOp "timer-widget"])
    else
      let r := position_widget_window st
      match r.1.widgetWindow with
      | none => (r.1, r.2)
      | some widget1 =>
        ({ r.1 with widgetWindow := some { widget1 with visible := true } },
          r.2 ++ [WinOp.showOp "timer-widget", WinOp.setFocusOp "timer-widget"])

/-- The tray-icon left-click (`MouseButton::Left`, `MouseButtonState::Up`)
handler body (lib.rs lines 234–242): same widget toggle. -/
def trayIconLeftClick (vis : VisQuery) (st : AppState) : AppState × List WinOp :=
  match st.widgetWindow with
  | none => (st, [])
  | some widget =>
    if ((vis widget.visible).toOption.getD false) then
      ({ st with widgetWindow := some { widget with visible := false } },
        [WinOp.hideOp "timer-widget"])
    else
      let r := position_widget_window st
      match r.1.widgetWindow with
      | none => (r.1, r.2)
      | some widget1 =>
        ({ r.1 with widgetWindow := some { widget1 with visible := true } },
          r.2 ++ [WinOp.showOp "timer-widget", WinOp.setFocusOp "timer-widget"])

/-- The `"tray_timer"` branch of the tray-menu handler
(lib.rs lines 248–258): same widget toggle. -/
def trayMenuTrayTimer (vis : VisQuery) (st : AppState) : AppState × List WinOp :=
  match st.widgetWindow with
  | none => (st, [])
  | some widget =>
    if ((vis widget.visible).toOption.getD false) then
      ({ st with widgetWindow := some { widget with visible := false } },
        [WinOp.hideOp "timer-widget"])
    else
      let r := position_widget_window st
      match r.1.widgetWindow with
      | none => (r.1, r.2)
      | some widget1 =>
        ({ r.1 with widgetWindow := some { widget1 with visible := true } },
          r.2 ++ [WinOp.showOp "timer-widget", WinOp.setFocusOp "timer-widget"])

/-- Show the main window, focus it, and have it evaluate `script`
(the shared shape of the `"settings"`, `"new_entry"` and `"tray_show"`
branches; `script = none` for `"tray_show"`). -/
def showMainAnd (st : AppState) (script : Option String) : AppState × List WinOp :=
  match st.mainWindow with
  | none => (st, [])
  | some window =>
    ({ st with mainWindow := some { window with visible := true } },
      [WinOp.showOp "main", WinOp.setFocusOp "main"] ++
        (match script with
         | some s => [WinOp.evalOp "main" s]
         | none => []))

/-- The application-menu event handler (lib.rs lines 181–211): dispatch on
the menu id; unmatched ids fall through to `_ => {}`. -/
def appMenuEventHandler (vis : VisQuery) (st : AppState) (id : String) :
    AppState × List WinOp :=
  match id with
  | "settings" => showMainAnd st (some "window.location.hash = \x27#/settings\x27")
  | "new_entry" => showMainAnd st (some "window.location.hash = \x27#/timer\x27")
  | "toggle_timer" => appMenuToggleTimer vis st
  | _ => (st, [])

/-- The tray-menu event handler (lib.rs lines 247–270): dispatch on the
menu id; `"tray_quit"` calls `app.exit(0)`; unmatched ids fall through. -/
def trayMenuEventHandler (vis : VisQuery) (st : AppState) (id : String) :
    AppState × List WinOp :=
  match id with
  | "tray_timer" => trayMenuTrayTimer vis st
  | "tray_show" => showMainAnd st none
  | "tray_quit" => (st, [WinOp.exitOp 0])
  | _ => (st, [])

/-- Window events the registered closures match on. -/
inductive WindowEv where
  | Focused (b : Bool)
  | CloseRequested
  | Other
deriving DecidableEq

/-- The widget window's event closure (lib.rs lines 276–284): on
`Focused(false)` it hides the captured widget handle (`let _ =` discards
the platform result); every other event does nothing. -/
def widgetWindowEventHandler (st : AppState) (ev : WindowEv) : AppState × List WinOp :=
  match ev with
  | WindowEv.Focused false =>
    (match st.widgetWindow with
     | some widget =>
       ({ st with widgetWindow := some { widget with visible := false } },
         [WinOp.hideOp "timer-widget"])
     | none => (st, []))
  | _ => (st, [])

/-- Outcome of the main window's close-requested closure: either it ran to
completion (new state, issued ops, and whether `api.prevent_close()` was
called), or it panicked (`unwrap` on an `Err`). -/
inductive CloseOutcome where
  | completed (st : AppState) (ops : List WinOp) (preventedClose : Bool)
  | panicked (msg : String)
deriving DecidableEq

/-- The main window's event closure for `CloseRequested`
(lib.rs lines 290–296): `window_clone.hide().unwrap()` then
`api.prevent_close()`.  `hide_err` is the platform outcome of `hide()`
(`none` = success); on `some e` the `unwrap` panics before
`prevent_close` is reached. -/
def mainCloseRequestedHandler (st : AppState) (hide_err : Option String) : CloseOutcome :=
  match hide_err with
  | some e => CloseOutcome.panicked ("called Result::unwrap on an Err value: " ++ e)
  | none =>
    match st.mainWindow with
    | some window =>
      CloseOutcome.completed
        { st with mainWindow := some { window with visible := false } }
        [WinOp.hideOp "main", WinOp.preventCloseOp] true
    | none => CloseOutcome.completed st [WinOp.hideOp "main", WinOp.preventCloseOp] true

/-! ## Helper lemmas and concrete states -/

/-- The widget window's visibility, when the window exists. -/
def widgetVisible (st : AppState) : Option Bool :=
  st.widgetWindow.map (fun w => w.visible)

theorem truncQ_intCast (n : Int) : truncQ (n : ℚ) = n := by
  unfold truncQ
  split <;> simp

theorem f64_as_i32_intCast (n : Int) (h1 : -(2 ^ 31) ≤ n) (h2 : n ≤ 2 ^ 31 - 1) :
    f64_as_i32 (n : ℚ) = n := by
  unfold f64_as_i32
  rw [truncQ_intCast]
  omega

/-- Positioning the widget never changes which windows exist, the tray, or
the widget's visibility: it only (possibly) updates the widget's `pos`. -/
theorem position_widget_window_spec (st : AppState) (w : WindowState)
    (hw : st.widgetWindow = some w) :
    ∃ p, (position_widget_window st).1 = { st with widgetWindow := some { w with pos := p } } := by
  obtain ⟨mw, ww, tr⟩ := st
  cases hw
  cases tr with
  | none => exact ⟨w.pos, rfl⟩
  | some tray =>
    obtain ⟨rres, title⟩ := tray
    cases rres with
    | error e => exact ⟨w.pos, rfl⟩
    | ok orect =>
      cases orect with
      | none => exact ⟨w.pos, rfl⟩
      | some rect => exact ⟨_, rfl⟩

theorem isEmpty_false_of_ne (s : String) (h : s ≠ "") : s.isEmpty = false := by
  rw [← Bool.not_eq_true, String.isEmpty_iff]
  exact h

theorem empty_isEmpty : ("" : String).isEmpty = true := rfl

/-- A concrete tray: physical rectangle at (100, 20) of size 24 × 24. -/
def demoTray : TrayState :=
  { rect := Except.ok (some
      { position := Pos.Physical 100 20, size := Sz.Physical 24 24 })
    title := "TimeGrid" }

/-- A concrete app state: both windows present (widget hidden), tray
present. -/
def demoState : AppState :=
  { mainWindow := some { visible := true, pos := (0, 0) }
    widgetWindow := some { visible := false, pos := (0, 0) }
    tray := some demoTray }

/-! ## C1 — tray title formatting -/

/-- C1: `formatTitle` satisfies the full case analysis: for non-empty `e`
and `p` it returns `"⏱ e • p"`; for non-empty `e` and empty `p` it
returns `"⏱ e"`; and for empty `e` it returns `"TimeGrid"` regardless of
`p`. -/
theorem formatTitle_cases (e p : String) :
    (e ≠ "" → p ≠ "" → formatTitle e p = "⏱ " ++ e ++ " • " ++ p) ∧
    (e ≠ "" → formatTitle e "" = "⏱ " ++ e) ∧
    (e = "" → formatTitle e p = "TimeGrid") := by
  refine ⟨fun he hp => ?_, fun he => ?_, fun he => ?_⟩
  · simp [formatTitle, isEmpty_false_of_ne e he, isEmpty_false_of_ne p hp]
  · simp [formatTitle, isEmpty_false_of_ne e he, empty_isEmpty]
  · simp [formatTitle, he, empty_isEmpty]

/-- Witness for C1 at concrete strings. -/
theorem formatTitle_cases_witness :
    formatTitle "1:23" "Acme" = "⏱ 1:23 • Acme" ∧
    formatTitle "1:23" "" = "⏱ 1:23" ∧
    formatTitle "" "Acme" = "TimeGrid" :=
  ⟨(formatTitle_cases "1:23" "Acme").1 (by decide) (by decide),
   (formatTitle_cases "1:23" "Acme").2.1 (by decide),
   (formatTitle_cases "" "Acme").2.2 rfl⟩

/-! ## C2 — `update_tray_title` error behavior -/

/-- C2: `update_tray_title` returns `Err s` (with `s` the platform error
string) exactly when the tray icon exists and `set_title` fails; a missing
tray icon is a no-op returning `Ok`; in every other case it returns `Ok`
with the tray title replaced by the formatted title. -/
theorem update_tray_title_cases (st : AppState) (err : Option String) (e p : String) :
    (st.tray = none → update_tray_title st err e p = Except.ok st) ∧
    (∀ tray s, st.tray = some tray → err = some s →
      update_tray_title st err e p = Except.error s) ∧
    (∀ tray, st.tray = some tray → err = none →
      update_tray_title st err e p =
        Except.ok { st with tray := some { tray with title := formatTitle e p } }) := by
  refine ⟨fun h => ?_, fun tray s ht hs => ?_, fun tray ht hs => ?_⟩ <;>
    simp [update_tray_title, formatTitle, *]

/-- Witness for C2: with the demo state, a failing `set_title` surfaces
the platform string, a successful one returns `Ok`, and a missing tray is
a no-op. -/
theorem update_tray_title_cases_witness :
    update_tray_title demoState (some "no tray") "1:23" "Acme" = Except.error "no tray" ∧
    update_tray_title { demoState with tray := none } none "1:23" "Acme" =
      Except.ok { demoState with tray := none } ∧
    update_tray_title demoState none "1:23" "Acme" =
      Except.ok { demoState with tray := some { demoTray with title := formatTitle "1:23" "Acme" } } :=
  ⟨(update_tray_title_cases demoState (some "no tray") "1:23" "Acme").2.1 demoTray "no tray" rfl rfl,
   (update_tray_title_cases { demoState with tray := none } none "1:23" "Acme").1 rfl,
   (update_tray_title_cases demoState none "1:23" "Acme").2.2 demoTray rfl rfl⟩

/-! ## C5 — concrete geometry -/

/-- C5: on the demo state (tray rect position (100, 20), size 24 × 24,
window width 320, gap 8), the geometry resolver computes and applies the
position (-48, 52) to the widget window. -/
theorem position_widget_window_demo :
    position_widget_window demoState =
      ({ demoState with widgetWindow := some { visible := false, pos := (-48, 52) } },
        [WinOp.setPositionOp "timer-widget" (-48) 52]) := by
  have h1 : f64_as_i32 (((100 : ℤ) : ℚ) + ((24 : ℕ) : ℚ) / 2 - 320 / 2) = -48 := by
    have hq : (((100 : ℤ) : ℚ) + ((24 : ℕ) : ℚ) / 2 - 320 / 2) = ((-48 : ℤ) : ℚ) := by
      norm_num
    rw [hq, f64_as_i32_intCast] <;> norm_num
  have h2 : f64_as_i32 (((20 : ℤ) : ℚ) + ((24 : ℕ) : ℚ) + 8) = 52 := by
    have hq : (((20 : ℤ) : ℚ) + ((24 : ℕ) : ℚ) + 8) = ((52 : ℤ) : ℚ) := by
      norm_num
    rw [hq, f64_as_i32_intCast] <;> norm_num
  simp only [position_widget_window, demoState, demoTray]
  rw [h1, h2]

/-! ## C3 — gap below the tray -/

/-- The y-coordinate the geometry resolver leaves on the widget window
(its stored position after `position_widget_window`). -/
def appliedWidgetY (st : AppState) : Int :=
  match (position_widget_window st).1.widgetWindow with
  | some w => w.pos.2
  | none => 0

/-- A state whose tray rectangle is reported in logical coordinates with a
fractional y component. -/
def fracState : AppState :=
  { mainWindow := none
    widgetWindow := some { visible := false, pos := (0, 0) }
    tray := some
      { rect := Except.ok (some
          { position := Pos.Logical 0 (1 / 2), size := Sz.Logical 22 22 })
        title := "TimeGrid" } }

/-- C3 counterexample: for a logical tray rectangle with y = 1/2 and
height 22, the computed y is 61/2, the `as i32` cast truncates it to 30,
and the realized gap below the tray bottom edge is 15/2, not 8. -/
theorem position_gap_counterexample :
    ((appliedWidgetY fracState : ℚ) - 1 / 2 - 22) ≠ 8 := by
  have hy : appliedWidgetY fracState = 30 := by
    have hq : ((1 / 2 : ℚ) + 22 + 8) = 61 / 2 := by norm_num
    have hfl : ⌊(61 / 2 : ℚ)⌋ = 30 := by
      rw [Int.floor_eq_iff]
      constructor <;> norm_num
    simp only [appliedWidgetY, position_widget_window, fracState]
    simp only [f64_as_i32, truncQ, hq, if_pos (by norm_num : (0 : ℚ) ≤ 61 / 2), hfl]
    norm_num
  rw [hy]
  norm_num

/-- C3 amended: for a tray rectangle in physical (integer) coordinates
whose computed y stays in the `i32` range, the applied position is exactly
8 units below the tray's bottom edge; for logical rectangles with
fractional components the `as i32` cast truncates, so the exact-gap
property fails there (see the counterexample). -/
theorem position_gap_physical (st : AppState) (w : WindowState) (tray : TrayState)
    (rect : TrayRect) (px py : Int) (sw sh : Nat)
    (hw : st.widgetWindow = some w) (ht : st.tray = some tray)
    (hr : tray.rect = Except.ok (some rect))
    (hp : rect.position = Pos.Physical px py) (hs : rect.size = Sz.Physical sw sh)
    (hlo : -(2 ^ 31) ≤ py) (hhi : py + sh + 8 ≤ 2 ^ 31 - 1) :
    appliedWidgetY st - py - sh = 8 := by
  obtain ⟨mw, ww, tr⟩ := st
  cases hw
  obtain ⟨rres, ttl⟩ := tray
  cases ht
  cases hr
  obtain ⟨rp, rs⟩ := rect
  cases hp
  cases hs
  have hq : ((py : ℚ) + (sh : ℚ) + 8) = ((py + sh + 8 : ℤ) : ℚ) := by push_cast; ring
  have hy : appliedWidgetY
      { mainWindow := mw, widgetWindow := some w,
        tray := some { rect := Except.ok (some
          { position := Pos.Physical px py, size := Sz.Physical sw sh }), title := ttl } } =
      py + sh + 8 := by
    simp only [appliedWidgetY, position_widget_window]
    rw [hq, f64_as_i32_intCast _ (by omega) hhi]
  rw [hy]
  omega

/-- Witness for the amended C3 at the demo state: the applied y is
20 + 24 + 8 = 52, exactly 8 below the tray bottom edge. -/
theorem position_gap_physical_witness :
    appliedWidgetY demoState - 20 - 24 = 8 :=
  position_gap_physical demoState { visible := false, pos := (0, 0) } demoTray
    { position := Pos.Physical 100 20, size := Sz.Physical 24 24 }
    100 20 24 24 rfl rfl rfl rfl rfl (by norm_num) (by norm_num)

/-! ## C4 — close request on the main window -/

/-- C4 (code bug): when the platform `hide()` call fails, the `.unwrap()`
in the close-requested closure panics before `api.prevent_close()` is
reached, so the default close action is not cancelled and the handler does
not complete — contradicting the documented close-to-hide intent. -/
theorem close_requested_unwrap_panics :
    mainCloseRequestedHandler demoState (some "platform failure") =
      CloseOutcome.panicked "called Result::unwrap on an Err value: platform failure" :=
  rfl

/-! ## Toggle path lemmas -/

/-- When `is_visible().unwrap_or(false)` comes out `false`, the toggle
takes the show path: the widget is (best-effort) positioned, then shown
and focused. -/
theorem toggle_show_path (vis : VisQuery) (st : AppState) (w : WindowState)
    (hw : st.widgetWindow = some w)
    (hq : (vis w.visible).toOption.getD false = false) :
    ∃ p, trayIconLeftClick vis st =
      ({ st with widgetWindow := some { visible := true, pos := p } },
        (position_widget_window st).2 ++
          [WinOp.showOp "timer-widget", WinOp.setFocusOp "timer-widget"]) := by
  obtain ⟨p, hp⟩ := position_widget_window_spec st w hw
  refine ⟨p, ?_⟩
  unfold trayIconLeftClick
  rw [hw]
  dsimp only
  rw [hq]
  simp only [Bool.false_eq_true, if_false, hp]

/-- When `is_visible().unwrap_or(false)` comes out `true`, the toggle
takes the hide path. -/
theorem toggle_hide_path (vis : VisQuery) (st : AppState) (w : WindowState)
    (hw : st.widgetWindow = some w)
    (hq : (vis w.visible).toOption.getD false = true) :
    trayIconLeftClick vis st =
      ({ st with widgetWindow := some { w with visible := false } },
        [WinOp.hideOp "timer-widget"]) := by
  unfold trayIconLeftClick
  rw [hw]
  dsimp only
  rw [hq]
  simp only [if_true]

/-! ## C6 — toggle round trip from Hidden -/

/-- C6: from a hidden widget, with the platform reporting visibility
accurately, the first tray-click toggle positions, shows and focuses the
widget (state Shown), and the second hides it (state Hidden again). -/
theorem toggle_toggle_roundtrip (st : AppState) (w : WindowState)
    (hw : st.widgetWindow = some w) (hv : w.visible = false) :
    widgetVisible (trayIconLeftClick accurateVis st).1 = some true ∧
    (trayIconLeftClick accurateVis st).2 =
      (position_widget_window st).2 ++
        [WinOp.showOp "timer-widget", WinOp.setFocusOp "timer-widget"] ∧
    widgetVisible (trayIconLeftClick accurateVis (trayIconLeftClick accurateVis st).1).1 =
      some false ∧
    (trayIconLeftClick accurateVis (trayIconLeftClick accurateVis st).1).2 =
      [WinOp.hideOp "timer-widget"] := by
  have hq1 : (accurateVis w.visible).toOption.getD false = false := by
    rw [hv]
    rfl
  obtain ⟨p, hp1⟩ := toggle_show_path accurateVis st w hw hq1
  have hst1 : (trayIconLeftClick accurateVis st).1 =
      { st with widgetWindow := some { visible := true, pos := p } } := by
    rw [hp1]
  have hw1 : (trayIconLeftClick accurateVis st).1.widgetWindow =
      some { visible := true, pos := p } := by
    rw [hst1]
  have hp2 := toggle_hide_path accurateVis (trayIconLeftClick accurateVis st).1
    { visible := true, pos := p } hw1 rfl
  refine ⟨?_, ?_, ?_, ?_⟩
  · rw [hst1]; simp [widgetVisible]
  · rw [hp1]
  · rw [hp2]; simp [widgetVisible]
  · rw [hp2]

/-- Witness for C6 at the demo state. -/
theorem toggle_toggle_roundtrip_witness :
    widgetVisible (trayIconLeftClick accurateVis demoState).1 = some true ∧
    (trayIconLeftClick accurateVis demoState).2 =
      (position_widget_window demoState).2 ++
        [WinOp.showOp "timer-widget", WinOp.setFocusOp "timer-widget"] ∧
    widgetVisible
        (trayIconLeftClick accurateVis (trayIconLeftClick accurateVis demoState).1).1 =
      some false ∧
    (trayIconLeftClick accurateVis (trayIconLeftClick accurateVis demoState).1).2 =
      [WinOp.hideOp "timer-widget"] :=
  toggle_toggle_roundtrip demoState { visible := false, pos := (0, 0) } rfl rfl

/-! ## C7 — focus loss when already hidden -/

/-- C7: delivering `Focused(false)` to the widget's event closure when
the widget is already hidden leaves the whole state unchanged (the issued
`hide()` is a no-op on an already-hidden window). -/
theorem focus_lost_hidden_noop (st : AppState) (w : WindowState)
    (hw : st.widgetWindow = some w) (hv : w.visible = false) :
    (widgetWindowEventHandler st (WindowEv.Focused false)).1 = st := by
  obtain ⟨mw, ww, tr⟩ := st
  cases hw
  obtain ⟨v0, p0⟩ := w
  cases hv
  rfl

/-- Witness for C7 at the demo state. -/
theorem focus_lost_hidden_noop_witness :
    (widgetWindowEventHandler demoState (WindowEv.Focused false)).1 = demoState :=
  focus_lost_hidden_noop demoState { visible := false, pos := (0, 0) } rfl rfl

/-! ## C8 — the three toggle entry points agree -/

/-- C8: the application-menu `"toggle_timer"` branch, the tray-icon
left-click body, and the tray-menu `"tray_timer"` branch are extensionally
the same toggle: for every platform response and state they produce the
same resulting state and the same operation sequence. -/
theorem toggle_entry_points_agree (vis : VisQuery) (st : AppState) :
    appMenuToggleTimer vis st = trayIconLeftClick vis st ∧
    trayMenuTrayTimer vis st = trayIconLeftClick vis st :=
  ⟨rfl, rfl⟩

/-! ## C9 — unknown menu ids are no-ops -/

/-- C9: a menu or tray-menu event whose id is none of the six dispatched
identifiers changes nothing and issues no operation. -/
theorem unknown_menu_id_noop (vis : VisQuery) (st : AppState) (id : String)
    (h : id ≠ "settings" ∧ id ≠ "new_entry" ∧ id ≠ "toggle_timer" ∧
      id ≠ "tray_timer" ∧ id ≠ "tray_show" ∧ id ≠ "tray_quit") :
    appMenuEventHandler vis st id = (st, []) ∧
    trayMenuEventHandler vis st id = (st, []) := by
  obtain ⟨h1, h2, h3, h4, h5, h6⟩ := h
  unfold appMenuEventHandler trayMenuEventHandler
  constructor <;> split <;> simp_all

/-- Witness for C9 at a concrete unknown id. -/
theorem unknown_menu_id_noop_witness :
    appMenuEventHandler accurateVis demoState "bogus" = (demoState, []) ∧
    trayMenuEventHandler accurateVis demoState "bogus" = (demoState, []) :=
  unknown_menu_id_noop accurateVis demoState "bogus"
    ⟨by decide, by decide, by decide, by decide, by decide, by decide⟩

/-! ## C10 — failed visibility query takes the show path -/

/-- C10: if the `is_visible()` query fails in any of the three toggle
entry points, `unwrap_or(false)` treats the widget as not visible, so the
toggle positions, shows and focuses the widget instead of hiding it or
reporting an error — whatever the widget's actual visibility. -/
theorem toggle_query_error_shows (st : AppState) (w : WindowState) (e : String)
    (hw : st.widgetWindow = some w) :
    ∃ p,
      appMenuToggleTimer (fun _ => Except.error e) st =
        ({ st with widgetWindow := some { visible := true, pos := p } },
          (position_widget_window st).2 ++
            [WinOp.showOp "timer-widget", WinOp.setFocusOp "timer-widget"]) ∧
      trayIconLeftClick (fun _ => Except.error e) st =
        ({ st with widgetWindow := some { visible := true, pos := p } },
          (position_widget_window st).2 ++
            [WinOp.showOp "timer-widget", WinOp.setFocusOp "timer-widget"]) ∧
      trayMenuTrayTimer (fun _ => Except.error e) st =
        ({ st with widgetWindow := some { visible := true, pos := p } },
          (position_widget_window st).2 ++
            [WinOp.showOp "timer-widget", WinOp.setFocusOp "timer-widget"]) := by
  obtain ⟨p, hp⟩ := toggle_show_path (fun _ => Except.error e) st w hw rfl
  exact ⟨p, hp, hp, hp⟩

/-- Witness for C10 at the demo state (actual visibility is false there,
but the proof never consults it). -/
theorem toggle_query_error_shows_witness :
    ∃ p,
      appMenuToggleTimer (fun _ => Except.error "query failed") demoState =
        ({ demoState with widgetWindow := some { visible := true, pos := p } },
          (position_widget_window demoState).2 ++
            [WinOp.showOp "timer-widget", WinOp.setFocusOp "timer-widget"]) ∧
      trayIconLeftClick (fun _ => Except.error "query failed") demoState =
        ({ demoState with widgetWindow := some { visible := true, pos := p } },
          (position_widget_window demoState).2 ++
            [WinOp.showOp "timer-widget", WinOp.setFocusOp "timer-widget"]) ∧
      trayMenuTrayTimer (fun _ => Except.error "query failed") demoState =
        ({ demoState with widgetWindow := some { visible := true, pos := p } },
          (position_widget_window demoState).2 ++
            [WinOp.showOp "timer-widget", WinOp.setFocusOp "timer-widget"]) :=
  toggle_query_error_shows demoState { visible := false, pos := (0, 0) } "query failed" rfl

end TimeGrid
